import Mathlib

/-!
Verification development for the stellarium-to-oculus plugin sources:
the `Landscape` renderer hierarchy (`Landscape.hpp`), the `Novae`
catalog plugin (`Novae.hpp`), and the build configuration of the
`MeteorShowers` and `CompassMarks` plugins.

C++ `float`/`double` values are embedded as rationals (`ℚ`), C++ `int`
as `ℤ`; the C cast `(int)` on a floating value truncates toward zero.
-/

/-- Truncation of a rational toward zero, the semantics of the C cast
`(int)` applied to a floating-point value. -/
def cIntOfQ (q : ℚ) : ℤ := Int.tdiv q.num q.den

/-- A 3-component vector, embedding `Vec3d`/`Vec3f` of `VecMath.hpp`;
component 2 (`z`) is the altitude component used by `getOpacity`. -/
structure Vec3 where
  x : ℚ
  y : ℚ
  z : ℚ
  deriving DecidableEq, Repr

/-- Embeds the part of `StelLocation` that `Landscape` reads: `hasLocation`
only inspects `planetName.length`. -/
structure StelLocation where
  planetName : String
  deriving DecidableEq, Repr

/-- Modelled from the spec: `StelFader.hpp` is host code included by
`Landscape.hpp` but absent from the repository. A `LinearFader` keeps a
boolean switch `state` and an `interstate` that fades linearly between
`minValue` and `maxValue` over `duration` milliseconds; assigning a boolean
starts (or reverses) a transition, `update` advances it by a tick count. -/
structure LinearFader where
  state : Bool
  isTransiting : Bool
  interstate : ℚ
  startValue : ℚ
  targetValue : ℚ
  counter : ℤ
  duration : ℤ
  minValue : ℚ
  maxValue : ℚ
  deriving DecidableEq, Repr

/-- Modelled from the spec (`StelFader.hpp` absent): boolean assignment
`fader = s`. If a transition is running toward the same state nothing
changes; toward the opposite state the transition is reversed; otherwise a
fresh transition from one extreme to the other begins. In every case the
switch `state` becomes `s`. -/
def LinearFader.set (f : LinearFader) (s : Bool) : LinearFader :=
  if f.isTransiting then
    if s = f.state then f
    else { f with state := s, counter := f.duration - f.counter,
                  startValue := f.targetValue, targetValue := f.startValue }
  else
    if s = f.state then f
    else { f with state := s,
                  startValue := if s then f.minValue else f.maxValue,
                  targetValue := if s then f.maxValue else f.minValue,
                  counter := 0, isTransiting := true }

/-- Modelled from the spec (`StelFader.hpp` absent): advance the fader by
`deltaTicks` milliseconds; when the transition completes, `interstate`
reaches `targetValue`, else it is interpolated linearly. -/
def LinearFader.update (f : LinearFader) (deltaTicks : ℤ) : LinearFader :=
  if f.isTransiting then
    let c := f.counter + deltaTicks
    if f.duration ≤ c then
      { f with counter := f.duration, isTransiting := false,
               interstate := f.targetValue }
    else
      { f with counter := c,
               interstate := f.startValue +
                 (f.targetValue - f.startValue) * c / f.duration }
  else f

/-- Modelled from the spec (`StelFader.hpp` absent): `getInterstate`. -/
def LinearFader.getInterstate (f : LinearFader) : ℚ := f.interstate

/-- Modelled from the spec (`StelFader.hpp` absent): `operator bool`,
the current switch state. -/
def LinearFader.toBool (f : LinearFader) : Bool := f.state

/-- The `float` value of `M_PI` used by `Landscape::setZRotation`
(nearest binary32 to π, 13176795 / 2^22). -/
def mPi : ℚ := 13176795 / 4194304

/-- Embedding of the `Landscape` base-class state (`Landscape.hpp`,
protected members). The optional `horizonPolygon` is a list of polygon
vertices when present. -/
structure Landscape where
  radius : ℚ
  name : String
  author : String
  description : String
  minBrightness : ℚ
  landscapeBrightness : ℚ
  lightScapeBrightness : ℚ
  validLandscape : Bool
  landFader : LinearFader
  fogFader : LinearFader
  rows : ℤ
  cols : ℤ
  angleRotateZ : ℚ
  angleRotateZOffset : ℚ
  location : StelLocation
  defaultBortleIndex : ℤ
  defaultFogSetting : ℤ
  defaultExtinctionCoefficient : ℚ
  defaultTemperature : ℚ
  defaultPressure : ℚ
  horizonPolygon : Option (List Vec3)
  horizonPolygonLineColor : Vec3
  deriving DecidableEq, Repr

/-- `Landscape::update(deltaTime)`: advances both faders by
`(int)(deltaTime*1000)` ticks (`Landscape.hpp` line 70). -/
def Landscape.update (l : Landscape) (deltaTime : ℚ) : Landscape :=
  { l with landFader := l.landFader.update (cIntOfQ (deltaTime * 1000)),
           fogFader := l.fogFader.update (cIntOfQ (deltaTime * 1000)) }

/-- `Landscape::setBrightness(b, pollutionBrightness)` (line 78). -/
def Landscape.setBrightness (l : Landscape) (b pollutionBrightness : ℚ) :
    Landscape :=
  { l with landscapeBrightness := b,
           lightScapeBrightness := pollutionBrightness }

/-- `Landscape::setFlagShow(b)`: `landFader = b` (line 81). -/
def Landscape.setFlagShow (l : Landscape) (b : Bool) : Landscape :=
  { l with landFader := l.landFader.set b }

/-- `Landscape::getFlagShow()`: `(bool)landFader` (line 83). -/
def Landscape.getFlagShow (l : Landscape) : Bool := l.landFader.toBool

/-- `Landscape::setFlagShowFog(b)`: `fogFader = b` (line 85). -/
def Landscape.setFlagShowFog (l : Landscape) (b : Bool) : Landscape :=
  { l with fogFader := l.fogFader.set b }

/-- `Landscape::getFlagShowFog()`: `(bool)fogFader` (line 87). -/
def Landscape.getFlagShowFog (l : Landscape) : Bool := l.fogFader.toBool

/-- `Landscape::hasLocation()`: `location.planetName.length() > 0`
(line 98). -/
def Landscape.hasLocation (l : Landscape) : Bool :=
  l.location.planetName.length > 0

/-- `Landscape::setZRotation(d)`:
`angleRotateZOffset = d * M_PI/180.0f` (line 120). -/
def Landscape.setZRotation (l : Landscape) (d : ℚ) : Landscape :=
  { l with angleRotateZOffset := d * mPi / 180 }

/-- `Landscape::getIsFullyVisible()`:
`landFader.getInterstate() >= 0.999f` (line 123). -/
def Landscape.getIsFullyVisible (l : Landscape) : Bool :=
  l.landFader.getInterstate ≥ 999 / 1000

/-- Default `Landscape::getOpacity(azalt)`:
`azalt[2] < 0 ? 1.0f : 0.0f` (line 128). -/
def Landscape.getOpacity (_l : Landscape) (azalt : Vec3) : ℚ :=
  if azalt.z < 0 then 1 else 0

/-- The tuple of attributes read once from `landscape.ini` by
`loadCommon`/`load` (lines 155-184), excluding the runtime attributes
(brightness pair, the two faders, `angleRotateZOffset`). -/
def Landscape.iniAttrs (l : Landscape) :
    ℚ × String × String × String × ℚ × Bool × ℤ × ℤ × ℚ × StelLocation ×
    ℤ × ℤ × ℚ × ℚ × ℚ × Option (List Vec3) × Vec3 :=
  (l.radius, l.name, l.author, l.description, l.minBrightness,
   l.validLandscape, l.rows, l.cols, l.angleRotateZ, l.location,
   l.defaultBortleIndex, l.defaultFogSetting,
   l.defaultExtinctionCoefficient, l.defaultTemperature,
   l.defaultPressure, l.horizonPolygon, l.horizonPolygonLineColor)

/-- Private state of `LandscapeOldStyle` (`Landscape.hpp` lines 200-248),
the tiled old-style panorama renderer; texture handles are omitted, the
numeric and boolean configuration fields are kept. -/
structure LandscapeOldStyle where
  base : Landscape
  nbSideTexs : ℤ
  nbSide : ℤ
  nbDecorRepeat : ℤ
  fogAltAngle : ℚ
  fogAngleShift : ℚ
  decorAltAngle : ℚ
  decorAngleShift : ℚ
  groundAngleShift : ℚ
  groundAngleRotateZ : ℚ
  drawGroundFirst : ℤ
  tanMode : Bool
  calibrated : Bool
  deriving DecidableEq, Repr

/-- Private state of `LandscapePolygonal` (lines 259-270): the measured
horizon polygon renderer adds only `groundColor`. -/
structure LandscapePolygonal where
  base : Landscape
  groundColor : Vec3
  deriving DecidableEq, Repr

/-- Private state of `LandscapeFisheye` (lines 278-306): the fisheye
single-image renderer adds the texture field of view `texFov`. -/
structure LandscapeFisheye where
  base : Landscape
  texFov : ℚ
  deriving DecidableEq, Repr

/-- Private state of `LandscapeSpherical` (lines 318-360): the
equirectangular renderer adds per-texture altitude extents. -/
structure LandscapeSpherical where
  base : Landscape
  mapTexTop : ℚ
  mapTexBottom : ℚ
  fogTexTop : ℚ
  fogTexBottom : ℚ
  illumTexTop : ℚ
  illumTexBottom : ℚ
  deriving DecidableEq, Repr

/-- The four concrete renderer variants of the `Landscape` hierarchy
declared in `Landscape.hpp`. -/
inductive LandscapeVariantTag where
  | oldStyle
  | polygonal
  | fisheye
  | spherical
  deriving DecidableEq, Repr, Fintype

/-- A value of any concrete `Landscape` subclass. -/
inductive AnyLandscape where
  | oldStyle (l : LandscapeOldStyle)
  | polygonal (l : LandscapePolygonal)
  | fisheye (l : LandscapeFisheye)
  | spherical (l : LandscapeSpherical)
  deriving DecidableEq, Repr

/-- The variant a concrete landscape belongs to. -/
def AnyLandscape.tag : AnyLandscape → LandscapeVariantTag
  | .oldStyle _ => .oldStyle
  | .polygonal _ => .polygonal
  | .fisheye _ => .fisheye
  | .spherical _ => .spherical

/-- The inherited `Landscape` base-class state of a concrete landscape. -/
def AnyLandscape.base : AnyLandscape → Landscape
  | .oldStyle l => l.base
  | .polygonal l => l.base
  | .fisheye l => l.base
  | .spherical l => l.base

/-- `update` called on a concrete subclass object: the method is
non-virtual and defined once in the base class (`Landscape.hpp` line 70),
so each variant runs the base-class body on its inherited state. -/
def AnyLandscape.update : AnyLandscape → ℚ → AnyLandscape
  | .oldStyle l, dt => .oldStyle { l with base := l.base.update dt }
  | .polygonal l, dt => .polygonal { l with base := l.base.update dt }
  | .fisheye l, dt => .fisheye { l with base := l.base.update dt }
  | .spherical l, dt => .spherical { l with base := l.base.update dt }

/-- `setBrightness` called on a concrete subclass object: non-virtual,
defined once in the base class (line 78). -/
def AnyLandscape.setBrightness : AnyLandscape → ℚ → ℚ → AnyLandscape
  | .oldStyle l, b, p => .oldStyle { l with base := l.base.setBrightness b p }
  | .polygonal l, b, p => .polygonal { l with base := l.base.setBrightness b p }
  | .fisheye l, b, p => .fisheye { l with base := l.base.setBrightness b p }
  | .spherical l, b, p => .spherical { l with base := l.base.setBrightness b p }

/-- The virtual methods of the shared renderer contract named by the
spec: `load`, `draw`, `getOpacity`. -/
inductive VirtualMethod where
  | load
  | draw
  | getOpacity
  deriving DecidableEq, Repr, Fintype

/-- Which variants declare (override) which contract method, read off the
class declarations in `Landscape.hpp`: `LandscapeOldStyle` lines 205-208,
`LandscapePolygonal` lines 264-266, `LandscapeFisheye` lines 283-287,
`LandscapeSpherical` lines 323-328 each declare `load`, `draw` and
`getOpacity`. -/
def declaresOverride : LandscapeVariantTag → VirtualMethod → Bool
  | _, _ => true

/-- `Novae::UpdateState` (`Novae.hpp` lines 70-76): the five update
status values of the Bright Novae catalog updater. -/
inductive UpdateState where
  | Updating
  | CompleteNoUpdates
  | CompleteUpdates
  | DownloadError
  | OtherError
  deriving DecidableEq, Repr, Fintype

/-- Whether a status value classifies a failure, read off the enum's
doc comments (`Novae.hpp` lines 74-75: the two error entries). -/
def UpdateState.isError : UpdateState → Bool
  | .DownloadError => true
  | .OtherError => true
  | _ => false

/-- Modelled from the spec: `Novae.cpp` is not in the repository. The
possible outcomes of one catalog download/parse run of the polling
fetch-and-merge. -/
inductive RunOutcome where
  | successNoUpdates
  | successUpdates
  | downloadFailure
  | otherFailure
  deriving DecidableEq, Repr, Fintype

/-- Modelled from the spec (`Novae.cpp` absent): whether a run outcome is
a failed run. -/
def RunOutcome.isFailure : RunOutcome → Bool
  | .downloadFailure => true
  | .otherFailure => true
  | _ => false

/-- Modelled from the spec (`Novae.cpp` absent): the terminal
`UpdateState` of a finished run, per the spec's state machine
`Updating → CompleteNoUpdates/CompleteUpdates/DownloadError/OtherError`. -/
def terminalState : RunOutcome → UpdateState
  | .successNoUpdates => .CompleteNoUpdates
  | .successUpdates => .CompleteUpdates
  | .downloadFailure => .DownloadError
  | .otherFailure => .OtherError

/-- Modelled from the spec (`Novae.cpp` absent): the updater-visible part
of the `Novae` module state, together with the log of
`updateStateChanged` signal emissions (most recent last). -/
structure NovaeUpd where
  updateState : UpdateState
  emitted : List UpdateState
  deriving DecidableEq, Repr

/-- Modelled from the spec (`Novae.cpp` absent): `updateJSON` starting a
download run sets the state to `Updating` and emits
`updateStateChanged(Updating)`. -/
def startUpdate (n : NovaeUpd) : NovaeUpd :=
  { updateState := .Updating, emitted := n.emitted ++ [.Updating] }

/-- Modelled from the spec (`Novae.cpp` absent): the run finishing with
outcome `o` sets the terminal state and emits `updateStateChanged` with
it. -/
def finishUpdate (n : NovaeUpd) (o : RunOutcome) : NovaeUpd :=
  { updateState := terminalState o,
    emitted := n.emitted ++ [terminalState o] }

/-- Modelled from the spec (`Novae.cpp` absent): one complete update run. -/
def runUpdate (n : NovaeUpd) (o : RunOutcome) : NovaeUpd :=
  finishUpdate (startUpdate n) o

/-- Modelled from the spec (`Novae.cpp` absent): the periodic
`checkForUpdate` slot runs an update only when the last update is older
than the configured frequency (`due`), else the state is untouched. -/
def checkForUpdate (n : NovaeUpd) (due : Bool) (o : RunOutcome) : NovaeUpd :=
  if due then runUpdate n o else n

/-- Modelled from the spec (`Nova.hpp`/`Novae.cpp` absent): the part of a
catalog entry the search interface reads, its English and localized
names. -/
structure Nova where
  englishName : String
  nameI18n : String
  deriving DecidableEq, Repr

/-- The characters of a string, folded to lower case; the embedding of
the case-folding the host search interface performs with `toUpper`. -/
def lowerChars (s : String) : List Char := s.data.map Char.toLower

/-- Whether the first character list is a prefix of the second. -/
def charsPre : List Char → List Char → Bool
  | [], _ => true
  | _ :: _, [] => false
  | c :: cs, d :: ds => c == d && charsPre cs ds

/-- Case-insensitive string equality, embedding the `toUpper` comparison
of the host search interface. -/
def strEqCI (a b : String) : Bool := lowerChars a == lowerChars b

/-- Case-insensitive test that `p` is a prefix of `a`. -/
def strPrefixCI (a p : String) : Bool := charsPre (lowerChars p) (lowerChars a)

/-- Modelled from the spec (`Novae.cpp` absent): `Novae::searchByName`
returns the first catalog object whose English name matches the
case-insensitive `name`, or nothing (`Novae.hpp` lines 102-104). -/
def searchByName (catalog : List Nova) (name : String) : Option Nova :=
  catalog.find? fun n => strEqCI n.englishName name

/-- Modelled from the spec (`Novae.cpp` absent): `Novae::searchByNameI18n`
likewise on the localized name (`Novae.hpp` lines 98-100). -/
def searchByNameI18n (catalog : List Nova) (nameI18n : String) : Option Nova :=
  catalog.find? fun n => strEqCI n.nameI18n nameI18n

/-- Modelled from the spec (`Novae.cpp` absent):
`Novae::listMatchingObjects` returns at most `maxNbItem` English names
auto-completing the case-insensitive first letters `objPfx`
(`Novae.hpp` lines 112-117). -/
def listMatchingObjects (catalog : List Nova) (objPfx : String)
    (maxNbItem : ℕ) : List String :=
  (((catalog.map Nova.englishName).filter
    fun s => strPrefixCI s objPfx).take maxNbItem)

/-- Modelled from the spec (`Novae.cpp` absent):
`Novae::listMatchingObjectsI18n` likewise on localized names
(`Novae.hpp` lines 106-111). -/
def listMatchingObjectsI18n (catalog : List Nova) (objPfx : String)
    (maxNbItem : ℕ) : List String :=
  (((catalog.map Nova.nameI18n).filter
    fun s => strPrefixCI s objPfx).take maxNbItem)

/-- Kinds of files a plugin contributes to the repository. -/
inductive SourceFileKind where
  | buildConfig
  | cppSource
  deriving DecidableEq, Repr

/-- A file present in the repository for a plugin. -/
structure RepoFile where
  path : String
  kind : SourceFileKind
  deriving DecidableEq, Repr

/-- The files of the `MeteorShowers` plugin present in the repository:
only `src/CMakeLists.txt`, build configuration. -/
def meteorShowersPresentFiles : List RepoFile :=
  [⟨"plugins/MeteorShowers/src/CMakeLists.txt", .buildConfig⟩]

/-- The files of the `CompassMarks` plugin present in the repository:
only its `CMakeLists.txt`, build configuration. -/
def compassMarksPresentFiles : List RepoFile :=
  [⟨"plugins/CompassMarks/src/CMakeLists.txt", .buildConfig⟩]

/-- Whether a file can define program behavior: build configuration
(packaging) defines none; C++ sources would. -/
def definesBehavior (f : RepoFile) : Bool :=
  match f.kind with
  | .buildConfig => false
  | .cppSource => true

/-- The behavior-defining files a plugin contributes: the present files
that are more than build configuration. -/
def behaviorFiles (files : List RepoFile) : List RepoFile :=
  files.filter definesBehavior

/-- A fader at rest in the hidden state (`interstate` 0, no transition
running), with the default 1000 ms duration. -/
def faderOff : LinearFader :=
  { state := false, isTransiting := false, interstate := 0, startValue := 0,
    targetValue := 0, counter := 0, duration := 1000, minValue := 0,
    maxValue := 1 }

/-- A concrete freshly loaded landscape used as test input. -/
def l0 : Landscape :=
  { radius := 2, name := "ocean", author := "a", description := "d",
    minBrightness := -1, landscapeBrightness := 0, lightScapeBrightness := 0,
    validLandscape := true, landFader := faderOff, fogFader := faderOff,
    rows := 8, cols := 16, angleRotateZ := 0, angleRotateZOffset := 0,
    location := ⟨"Earth"⟩, defaultBortleIndex := -1, defaultFogSetting := -1,
    defaultExtinctionCoefficient := -1, defaultTemperature := -1000,
    defaultPressure := -1, horizonPolygon := none,
    horizonPolygonLineColor := ⟨-1, 0, 0⟩ }

/-- A second concrete landscape differing from `l0` in name and
brightness. -/
def l1 : Landscape :=
  { l0 with name := "garching", landscapeBrightness := 1 }

/-- A concrete catalog entry used as test input. -/
def nv1 : Nova := ⟨"V339 Del", "V339 Del"⟩

/-- Assigning a boolean to a `LinearFader` always makes that boolean the
switch state, in every branch of the assignment operator. -/
theorem LinearFader.state_set (f : LinearFader) (b : Bool) :
    (f.set b).state = b := by
  simp only [LinearFader.set]
  split_ifs with h1 h2 h3 <;>
    first
      | rfl
      | exact h2.symm
      | exact h3.symm

/-- Claim C1: `Novae::UpdateState` consists of exactly the five states
`Updating`, `CompleteNoUpdates`, `CompleteUpdates`, `DownloadError` and
`OtherError`; exactly `DownloadError` and `OtherError` classify failures,
every failed run ends in one of those two, and every successful run ends
in `CompleteNoUpdates` or `CompleteUpdates`. -/
theorem novae_updateState_taxonomy :
    Fintype.card UpdateState = 5 ∧
    (∀ s : UpdateState,
      s.isError = true ↔ (s = .DownloadError ∨ s = .OtherError)) ∧
    (∀ o : RunOutcome, o.isFailure = true ↔
      ((terminalState o).isError = true)) ∧
    (∀ o : RunOutcome, o.isFailure = false ↔
      (terminalState o = .CompleteNoUpdates ∨
       terminalState o = .CompleteUpdates)) := by
  refine ⟨by decide, by decide, by decide, by decide⟩

/-- Witness for C1 at the concrete state `DownloadError` and the concrete
outcome `downloadFailure`. -/
theorem novae_updateState_taxonomy_witness :
    UpdateState.isError .DownloadError = true ∧
    RunOutcome.isFailure .downloadFailure = true :=
  ⟨(novae_updateState_taxonomy.2.1 .DownloadError).mpr (Or.inl rfl),
   (novae_updateState_taxonomy.2.2.1 .downloadFailure).mpr (by decide)⟩

/-- Counterexample to claim C2 at the concrete landscape `l0`: the public
operations `setZRotation` and `setFlagShow` do modify a rotation angle
(`angleRotateZOffset`) and the fade state after load. -/
theorem landscape_config_immutable_cex :
    (l0.setZRotation 90).angleRotateZOffset ≠ l0.angleRotateZOffset ∧
    (l0.setFlagShow true).getFlagShow ≠ l0.getFlagShow := by
  constructor
  · show 90 * mPi / 180 ≠ l0.angleRotateZOffset
    show 90 * mPi / 180 ≠ (0 : ℚ)
    rw [mPi]
    norm_num
  · decide

/-- Claim C2 as amended: the runtime attributes (rotation offset,
brightness pair, the two faders) are mutable after load through the
public operations `setZRotation`, `setBrightness`, `setFlagShow`,
`setFlagShowFog` and `update`; the attributes loaded once from the ini
file (name, author, description, radius, tesselation, `angleRotateZ`,
location, atmosphere defaults, horizon polygon and its color) are
modified by none of these public operations. -/
theorem landscape_mutators_frame (l : Landscape) (d b p dt : ℚ) (s : Bool) :
    (l.setZRotation d).iniAttrs = l.iniAttrs ∧
    (l.setBrightness b p).iniAttrs = l.iniAttrs ∧
    (l.setFlagShow s).iniAttrs = l.iniAttrs ∧
    (l.setFlagShowFog s).iniAttrs = l.iniAttrs ∧
    (l.update dt).iniAttrs = l.iniAttrs ∧
    (l.setZRotation d).angleRotateZOffset = d * mPi / 180 :=
  ⟨rfl, rfl, rfl, rfl, rfl, rfl⟩

/-- Witness for C2's amended claim at concrete inputs. -/
theorem landscape_mutators_frame_witness :
    (l0.setZRotation 90).iniAttrs = l0.iniAttrs ∧
    (l0.setZRotation 90).angleRotateZOffset = 90 * mPi / 180 :=
  ⟨(landscape_mutators_frame l0 90 0 0 0 true).1,
   (landscape_mutators_frame l0 90 0 0 0 true).2.2.2.2.2⟩

/-- Counterexample to claim C3 at concrete inputs: the default
`Landscape::getOpacity` computes the same result on two distinct object
states from its explicit argument alone, so an isolable pure behavior
does exist in the public interface. -/
theorem no_isolable_behavior_cex :
    Landscape.getOpacity l0 ⟨0, 0, -1⟩ = 1 ∧
    Landscape.getOpacity l1 ⟨0, 0, -1⟩ = 1 ∧
    l0 ≠ l1 ∧
    l0.hasLocation = true := by
  refine ⟨by decide, by decide, ?_, by decide⟩
  intro h
  have : l0.name = l1.name := congrArg Landscape.name h
  simp [l0, l1] at this

/-- Claim C3 as amended: several public-interface operations are pure
functions of their explicit arguments and object state alone — the
default `getOpacity` depends only on its argument (not on object state),
`hasLocation` only on the stored location, and the show-flag roundtrip is
determined by the argument. -/
theorem isolable_pure_functions (l l' : Landscape) (azalt : Vec3) (b : Bool) :
    l.getOpacity azalt = l'.getOpacity azalt ∧
    (azalt.z < 0 → l.getOpacity azalt = 1) ∧
    (0 ≤ azalt.z → l.getOpacity azalt = 0) ∧
    (l.location = l'.location → l.hasLocation = l'.hasLocation) ∧
    (l.setFlagShow b).getFlagShow = b := by
  refine ⟨rfl, fun h => if_pos h, fun h => if_neg (not_lt.mpr h), ?_, ?_⟩
  · intro h
    simp [Landscape.hasLocation, h]
  · exact LinearFader.state_set l.landFader b

/-- Witness for C3's amended claim at concrete inputs, discharging each
hypothesis. -/
theorem isolable_pure_functions_witness :
    ((-1 : ℚ) < 0 ∧ Landscape.getOpacity l0 ⟨0, 0, -1⟩ = 1) ∧
    ((0 : ℚ) ≤ 1 ∧ Landscape.getOpacity l0 ⟨0, 0, 1⟩ = 0) ∧
    (l0.location = l0.location ∧ l0.hasLocation = l0.hasLocation) :=
  ⟨⟨by norm_num, (isolable_pure_functions l0 l1 ⟨0, 0, -1⟩ true).2.1 (by norm_num)⟩,
   ⟨by norm_num, (isolable_pure_functions l0 l1 ⟨0, 0, 1⟩ true).2.2.1 (by norm_num)⟩,
   ⟨rfl, (isolable_pure_functions l0 l0 ⟨0, 0, 1⟩ true).2.2.2.1 rfl⟩⟩

/-- Claim C4: the `Landscape` hierarchy has exactly four concrete
renderer variants; each declares `load`, `draw` and `getOpacity`; all
variants share unchanged the base-class fade update (both faders advance
by `(int)(deltaTime*1000)` ticks) and brightness setting
(`landscapeBrightness` and `lightScapeBrightness`). -/
theorem landscape_hierarchy_contract :
    Fintype.card LandscapeVariantTag = 4 ∧
    (∀ (v : LandscapeVariantTag) (m : VirtualMethod),
      declaresOverride v m = true) ∧
    (∀ (al : AnyLandscape) (dt : ℚ),
      (al.update dt).base = al.base.update dt ∧
      (al.update dt).tag = al.tag) ∧
    (∀ (al : AnyLandscape) (b p : ℚ),
      (al.setBrightness b p).base = al.base.setBrightness b p ∧
      (al.setBrightness b p).tag = al.tag) ∧
    (∀ (l : Landscape) (dt : ℚ),
      (l.update dt).landFader = l.landFader.update (cIntOfQ (dt * 1000)) ∧
      (l.update dt).fogFader = l.fogFader.update (cIntOfQ (dt * 1000))) ∧
    (∀ (l : Landscape) (b p : ℚ),
      (l.setBrightness b p).landscapeBrightness = b ∧
      (l.setBrightness b p).lightScapeBrightness = p) := by
  refine ⟨by decide, by decide, ?_, ?_, ?_, ?_⟩
  · intro al dt; cases al <;> exact ⟨rfl, rfl⟩
  · intro al b p; cases al <;> exact ⟨rfl, rfl⟩
  · intro l dt; exact ⟨rfl, rfl⟩
  · intro l b p; exact ⟨rfl, rfl⟩

/-- Witness for C4 at a concrete subclass value. -/
theorem landscape_hierarchy_contract_witness :
    ((AnyLandscape.fisheye ⟨l0, 1⟩).setBrightness 1 0).base =
      l0.setBrightness 1 0 :=
  (landscape_hierarchy_contract.2.2.2.1 (.fisheye ⟨l0, 1⟩) 1 0).1

/-- Claim C5: every catalog update run sets the state to `Updating` when
it starts and to exactly one of the four terminal states when it
finishes, `updateStateChanged` is emitted for each such change, and no
other transitions occur (the periodic check leaves state and emissions
untouched when no update is due). -/
theorem novae_update_state_machine (n : NovaeUpd) (o : RunOutcome) :
    (startUpdate n).updateState = .Updating ∧
    (startUpdate n).emitted = n.emitted ++ [.Updating] ∧
    (runUpdate n o).updateState = terminalState o ∧
    ((runUpdate n o).updateState = .CompleteNoUpdates ∨
     (runUpdate n o).updateState = .CompleteUpdates ∨
     (runUpdate n o).updateState = .DownloadError ∨
     (runUpdate n o).updateState = .OtherError) ∧
    (runUpdate n o).emitted = n.emitted ++ [.Updating, terminalState o] ∧
    checkForUpdate n false o = n ∧
    checkForUpdate n true o = runUpdate n o := by
  refine ⟨rfl, rfl, rfl, ?_, ?_, rfl, rfl⟩
  · cases o <;> simp [runUpdate, finishUpdate, startUpdate, terminalState]
  · simp [runUpdate, finishUpdate, startUpdate]

/-- Witness for C5 at a concrete updater state and outcome. -/
theorem novae_update_state_machine_witness :
    (runUpdate ⟨.CompleteNoUpdates, []⟩ .downloadFailure).updateState =
      .DownloadError ∧
    (runUpdate ⟨.CompleteNoUpdates, []⟩ .downloadFailure).emitted =
      [.Updating, .DownloadError] :=
  ⟨(novae_update_state_machine ⟨.CompleteNoUpdates, []⟩ .downloadFailure).2.2.1,
   (novae_update_state_machine ⟨.CompleteNoUpdates, []⟩ .downloadFailure).2.2.2.2.1⟩

/-- Claim C6: `searchByName`/`searchByNameI18n` return a matching object
exactly when one with that case-insensitive name exists (and nothing
otherwise); `listMatchingObjects`/`listMatchingObjectsI18n` return at
most `maxNbItem` names and the empty list when nothing matches the
prefix. -/
theorem novae_search_interface (catalog : List Nova) (nm pfx : String)
    (maxNbItem : ℕ) :
    ((searchByName catalog nm).isSome ↔
      ∃ n ∈ catalog, strEqCI n.englishName nm = true) ∧
    ((searchByNameI18n catalog nm).isSome ↔
      ∃ n ∈ catalog, strEqCI n.nameI18n nm = true) ∧
    (listMatchingObjects catalog pfx maxNbItem).length ≤ maxNbItem ∧
    (listMatchingObjectsI18n catalog pfx maxNbItem).length ≤ maxNbItem ∧
    ((∀ n ∈ catalog, strPrefixCI n.englishName pfx = false) →
      listMatchingObjects catalog pfx maxNbItem = []) ∧
    ((∀ n ∈ catalog, strPrefixCI n.nameI18n pfx = false) →
      listMatchingObjectsI18n catalog pfx maxNbItem = []) := by
  refine ⟨?_, ?_, ?_, ?_, ?_, ?_⟩
  · exact List.find?_isSome
  · exact List.find?_isSome
  · exact List.length_take_le maxNbItem _
  · exact List.length_take_le maxNbItem _
  · intro h
    have hf : (catalog.map Nova.englishName).filter
        (fun s => strPrefixCI s pfx) = [] := by
      rw [List.filter_eq_nil_iff]
      intro a ha
      obtain ⟨n, hn, rfl⟩ := List.mem_map.mp ha
      simp [h n hn]
    simp [listMatchingObjects, hf]
  · intro h
    have hf : (catalog.map Nova.nameI18n).filter
        (fun s => strPrefixCI s pfx) = [] := by
      rw [List.filter_eq_nil_iff]
      intro a ha
      obtain ⟨n, hn, rfl⟩ := List.mem_map.mp ha
      simp [h n hn]
    simp [listMatchingObjectsI18n, hf]

/-- Witness for C6 at a concrete one-entry catalog, discharging the
no-match hypotheses. -/
theorem novae_search_interface_witness :
    listMatchingObjects [nv1] "zz" 5 = [] ∧
    listMatchingObjectsI18n [nv1] "zz" 5 = [] ∧
    (searchByName [nv1] "v339 del").isSome :=
  ⟨(novae_search_interface [nv1] "zz" "zz" 5).2.2.2.2.1 (by decide),
   (novae_search_interface [nv1] "zz" "zz" 5).2.2.2.2.2 (by decide),
   (novae_search_interface [nv1] "v339 del" "zz" 5).1.mpr
     ⟨nv1, by decide, by decide⟩⟩

/-- Claim C7: the `MeteorShowers` and `CompassMarks` plugins contribute
only build configuration to the repository, so neither defines any
inspectable program behavior. -/
theorem stub_plugins_no_behavior :
    (∀ f ∈ meteorShowersPresentFiles, f.kind = .buildConfig) ∧
    (∀ f ∈ compassMarksPresentFiles, f.kind = .buildConfig) ∧
    behaviorFiles meteorShowersPresentFiles = [] ∧
    behaviorFiles compassMarksPresentFiles = [] := by
  refine ⟨by decide, by decide, by decide, by decide⟩

/-- Witness for C7 at the concrete CMake file entries. -/
theorem stub_plugins_no_behavior_witness :
    (⟨"plugins/MeteorShowers/src/CMakeLists.txt", .buildConfig⟩ :
      RepoFile).kind = .buildConfig ∧
    (⟨"plugins/CompassMarks/src/CMakeLists.txt", .buildConfig⟩ :
      RepoFile).kind = .buildConfig :=
  ⟨stub_plugins_no_behavior.1 _ (by decide),
   stub_plugins_no_behavior.2.1 _ (by decide)⟩

/-- Claim C8: the default `Landscape::getOpacity` is a total two-valued
function of the sign of the third component of its argument — 1 when
`azalt[2] < 0`, 0 otherwise — independent of all other object state. -/
theorem default_getOpacity_sign (l : Landscape) (azalt : Vec3) :
    (azalt.z < 0 → l.getOpacity azalt = 1) ∧
    (¬azalt.z < 0 → l.getOpacity azalt = 0) ∧
    (∀ l' : Landscape, l.getOpacity azalt = l'.getOpacity azalt) :=
  ⟨fun h => if_pos h, fun h => if_neg h, fun _ => rfl⟩

/-- Witness for C8 at concrete arguments on both sides of the horizon. -/
theorem default_getOpacity_sign_witness :
    ((-5 : ℚ) < 0 ∧ Landscape.getOpacity l0 ⟨1, 2, -5⟩ = 1) ∧
    (¬(3 : ℚ) < 0 ∧ Landscape.getOpacity l0 ⟨1, 2, 3⟩ = 0) :=
  ⟨⟨by norm_num, (default_getOpacity_sign l0 ⟨1, 2, -5⟩).1 (by norm_num)⟩,
   ⟨by norm_num, (default_getOpacity_sign l0 ⟨1, 2, 3⟩).2.1 (by norm_num)⟩⟩

/-- Claim C9: `setFlagShow`/`getFlagShow` and `setFlagShowFog`/
`getFlagShowFog` round-trip every boolean; immediately after
`setFlagShow(true)` the landscape may not yet be fully visible, and
`getIsFullyVisible` holds exactly when the land fader's interstate is at
least 0.999. -/
theorem landscape_flag_roundtrip (l : Landscape) (b : Bool) :
    (l.setFlagShow b).getFlagShow = b ∧
    (l.setFlagShowFog b).getFlagShowFog = b ∧
    (∃ lw : Landscape, (lw.setFlagShow true).getFlagShow = true ∧
      (lw.setFlagShow true).getIsFullyVisible = false) ∧
    (∀ l' : Landscape,
      l'.getIsFullyVisible = true ↔
        (999 / 1000 : ℚ) ≤ l'.landFader.getInterstate) := by
  refine ⟨LinearFader.state_set l.landFader b,
          LinearFader.state_set l.fogFader b, ⟨l0, by decide, ?_⟩, ?_⟩
  · show decide ((l0.setFlagShow true).landFader.getInterstate ≥ 999 / 1000) = false
    norm_num [Landscape.setFlagShow, LinearFader.set, LinearFader.getInterstate,
      l0, faderOff]
  intro l'
  simp [Landscape.getIsFullyVisible, LinearFader.getInterstate, ge_iff_le]

/-- Witness for C9 at the concrete landscape `l0`. -/
theorem landscape_flag_roundtrip_witness :
    (l0.setFlagShow true).getFlagShow = true ∧
    (l0.setFlagShowFog false).getFlagShowFog = false :=
  ⟨(landscape_flag_roundtrip l0 true).1,
   (landscape_flag_roundtrip l0 false).2.1⟩
